import Mathlib

/-!
Shallow embedding of the deployment reconciliation and monitoring pipeline
implemented by the `KubernetesMonitor` class in `src/main.py`.

External effects (subprocess calls to `kubectl`/`minikube`, the Kubernetes
API client, the Prometheus client) are modelled by environment records whose
fields hold the responses those calls would produce; `Except Unit _` fields
model calls that may raise an exception.  Each embedded operation returns,
besides the value the Python function returns, a small trace (how many status
queries / service queries / metric queries were issued) so that claims about
invocation counts can be stated.
-/

/-- Parsed outcome of one `kubectl get deployment my-docker-app -o json` call
(`check_deployment_status`, src/main.py:175-183).  `returncode` is the
process exit code; `parseOk` is false when `json.loads` on the stdout would
raise; `readyReplicas` models `data['status'].get('readyReplicas', 0)`
(absent key gives `none`); `replicas` models `data['spec']['replicas']`. -/
structure StatusQueryResult where
  returncode : Int
  parseOk : Bool
  readyReplicas : Option Nat
  replicas : Nat
deriving DecidableEq

/-- One entry of `spec.ports` in the JSON of `kubectl get svc`; `nodePort`
is `none` when the `nodePort` key is absent (so that
`svc_data['spec']['ports'][0]['nodePort']` raises `KeyError`). -/
structure SvcPort where
  nodePort : Option Nat
deriving DecidableEq

/-- Outcome of the `kubectl get svc my-docker-service -o json` call inside
`check_deployment_status` (src/main.py:191-198). -/
structure SvcQueryResult where
  returncode : Int
  ports : List SvcPort
deriving DecidableEq

/-- Environment for `check_deployment_status`: `status i` is the response the
i-th status query would receive (the code issues only query 0), `svc` the
response to the service query, `minikubeIpResult` the outcome of the
`minikube ip` subprocess in `get_minikube_ip`. -/
structure PollEnv where
  status : Nat → StatusQueryResult
  svc : SvcQueryResult
  minikubeIpResult : Except Unit String

/-- `get_minikube_ip` (src/main.py:93-100): returns the stripped stdout of
`minikube ip`, or the hard-coded `192.168.49.2` when the subprocess raises. -/
def get_minikube_ip (r : Except Unit String) : String :=
  match r with
  | .ok s => s
  | .error _ => "192.168.49.2"

/-- `ready = data['status'].get('readyReplicas', 0)` (src/main.py:182). -/
def observedReady (s : StatusQueryResult) : Nat :=
  s.readyReplicas.getD 0

/-- What `check_deployment_status` produces: the Python return value
(`result`), the service endpoint printed in the converged branch (`none`
when none is printed), and how many status / service queries were issued. -/
structure CheckOutcome where
  result : Bool
  endpoint : Option (String × Nat)
  statusQueries : Nat
  svcQueries : Nat
deriving DecidableEq

/-- `check_deployment_status` (src/main.py:172-207).  One status query is
issued; on exit code 0 the JSON is parsed (a parse failure raises and is
caught, returning `false`); when `ready == total` the service query runs,
and a malformed service payload (`ports` empty or first port without
`nodePort`) raises inside the `try`, so the whole call returns `false`;
a nonzero service exit code merely skips the endpoint printing and the
call still returns `ready == total`. -/
def check_deployment_status (env : PollEnv) : CheckOutcome :=
  if (env.status 0).returncode = 0 then
    if (env.status 0).parseOk then
      if observedReady (env.status 0) = (env.status 0).replicas then
        if env.svc.returncode = 0 then
          match env.svc.ports with
          | [] => ⟨false, none, 1, 1⟩
          | p :: _ =>
            match p.nodePort with
            | none => ⟨false, none, 1, 1⟩
            | some np =>
              ⟨true, some (get_minikube_ip env.minikubeIpResult, np), 1, 1⟩
        else ⟨true, none, 1, 1⟩
      else ⟨false, none, 1, 0⟩
    else ⟨false, none, 1, 0⟩
  else ⟨false, none, 1, 0⟩

/-- A status observation that reports convergence: the query succeeded and
the observed ready count equals the declared count. -/
def observedConverged (s : StatusQueryResult) : Bool :=
  (s.returncode == 0) && s.parseOk && (observedReady s == s.replicas)

/-- Terminal states of the spec's Convergence Poller state machine. -/
inductive PollerState
  | Converged
  | TimedOut
deriving DecidableEq

/-- Modelled from the spec: the Convergence Poller as a bounded polling loop —
"polls the applied workload's status until the observed ready-replica count
matches the declared replica count, or a bounded number of attempts is
exhausted"; a failed query counts as a non-converging poll.  `b` is the
remaining retry budget, `i` the index of the next poll. -/
def pollerSpecLoop (statuses : Nat → StatusQueryResult) : Nat → Nat → PollerState
  | 0, _ => .TimedOut
  | b + 1, i =>
    if observedConverged (statuses i) then .Converged
    else pollerSpecLoop statuses b (i + 1)

/-- A status response that is not yet converged: 0 of 1 replicas ready. -/
def statusNotReady : StatusQueryResult := ⟨0, true, some 0, 1⟩

/-- A status response that is converged: 1 of 1 replicas ready. -/
def statusReady : StatusQueryResult := ⟨0, true, some 1, 1⟩

/-- A status stream whose first poll is not converged and every later poll
is converged. -/
def lateStatuses : Nat → StatusQueryResult :=
  fun n => if n = 0 then statusNotReady else statusReady

/-- Environment for the C1 counterexample: convergence appears on the second
poll; the service query would succeed with an assigned node port. -/
def envC1 : PollEnv := ⟨lateStatuses, ⟨0, [⟨some 30500⟩]⟩, .ok "192.168.49.2"⟩

/-- C1 counterexample: with retry budget 2 the spec's bounded polling loop
observes convergence on the second poll, but `check_deployment_status`
issues exactly one status query and reports non-convergence — the code is a
single-shot status query, not a polling loop, refuting the claim for B = 2. -/
theorem C1_counterexample :
    pollerSpecLoop lateStatuses 2 0 = PollerState.Converged ∧
    (check_deployment_status envC1).result = false ∧
    (check_deployment_status envC1).statusQueries = 1 := by
  decide

/-- C1 (amended): the convergence check is a single-shot status query, not a
bounded polling loop: in every environment exactly one status query is
issued, and convergence is reported only if the very first observation
already has ready = declared. -/
theorem C1_single_shot (env : PollEnv) :
    (check_deployment_status env).statusQueries = 1 ∧
    ((check_deployment_status env).result = true →
      observedConverged (env.status 0) = true) := by
  unfold check_deployment_status
  split
  · split
    · split
      · split
        · split
          · simp_all [observedConverged, observedReady]
          · split
            · simp_all [observedConverged, observedReady]
            · simp_all [observedConverged, observedReady]
        · simp_all [observedConverged, observedReady]
      · simp
    · simp
  · simp

/-- Environment in which the first poll is already converged and the service
payload carries a node port, so the check reports `true`. -/
def envC1w : PollEnv := ⟨fun _ => statusReady, ⟨0, [⟨some 30500⟩]⟩, .ok "192.168.49.2"⟩

/-- C1 witness: the single-shot theorem instantiated at a concrete converged
environment. -/
theorem C1_single_shot_witness :
    (check_deployment_status envC1w).statusQueries = 1 ∧
    observedConverged (envC1w.status 0) = true :=
  ⟨(C1_single_shot envC1w).1, (C1_single_shot envC1w).2 (by decide)⟩

/-- The converged-branch service lookup raises a Python exception exactly
when the service query exits 0 but its payload has no ports or the first
port carries no `nodePort` key (src/main.py:196-198). -/
def svcLookupRaises (svc : SvcQueryResult) : Bool :=
  (svc.returncode == 0) &&
    (match svc.ports with
     | [] => true
     | p :: _ => p.nodePort.isNone)

/-- Environment for the C3 counterexample: the status query reports 1 of 1
replicas ready, but the service payload has an empty `ports` list, so the
endpoint lookup raises and the whole check returns `false`. -/
def envC3 : PollEnv := ⟨fun _ => statusReady, ⟨0, []⟩, .ok "192.168.49.2"⟩

/-- C3 counterexample: a poll whose observed ready count equals the declared
count (1 = 1) on which `check_deployment_status` nevertheless returns
`false`, because the service-endpoint lookup in the converged branch raises
(empty `ports`) and the exception handler returns `false` — refuting the
claimed "true if and only if ready = declared". -/
theorem C3_counterexample :
    (envC3.status 0).returncode = 0 ∧
    observedReady (envC3.status 0) = (envC3.status 0).replicas ∧
    (check_deployment_status envC3).result = false := by
  decide

/-- C3 (amended): provided the status query exits 0, its JSON parses, and the
converged-branch service lookup does not raise, the reported result is true
iff the observed ready count equals the declared count.  (When the lookup
raises, the check returns false even though ready = declared.) -/
theorem C3_converged_iff (env : PollEnv)
    (h1 : (env.status 0).returncode = 0)
    (h2 : (env.status 0).parseOk = true)
    (h3 : svcLookupRaises env.svc = false) :
    (check_deployment_status env).result = true ↔
      observedReady (env.status 0) = (env.status 0).replicas := by
  unfold check_deployment_status
  unfold svcLookupRaises at h3
  repeat' split
  all_goals simp_all [observedReady]

/-- Environment for the C3 witness: first poll converged, service lookup
succeeds with a node port. -/
def envC3w : PollEnv := ⟨fun _ => statusReady, ⟨0, [⟨some 31000⟩]⟩, .ok "10.0.0.1"⟩

/-- C3 witness: the amended iff instantiated at a concrete environment. -/
theorem C3_converged_iff_witness :
    (check_deployment_status envC3w).result = true ↔
      observedReady (envC3w.status 0) = (envC3w.status 0).replicas :=
  C3_converged_iff envC3w (by decide) (by decide) (by decide)

/-- Environment for the C5 counterexample: the status query reports 2 of 2
ready, but the `kubectl get svc` call exits nonzero, so no endpoint is
printed even though convergence was observed. -/
def envC5 : PollEnv := ⟨fun _ => ⟨0, true, some 2, 2⟩, ⟨1, []⟩, .ok "192.168.49.2"⟩

/-- C5 counterexample: convergence is observed and the resolver (service
query) is invoked once, yet no endpoint is produced because the service
query failed — refuting the claimed "endpoint produced if and only if
convergence was observed" (the "if" direction fails). -/
theorem C5_counterexample :
    observedConverged (envC5.status 0) = true ∧
    (check_deployment_status envC5).svcQueries = 1 ∧
    (check_deployment_status envC5).endpoint = none ∧
    (check_deployment_status envC5).result = true := by
  decide

/-- C5 (amended): an endpoint is populated only if convergence was observed;
on an observed-converged poll the service resolver is invoked exactly once
(though the endpoint may still be absent when that lookup fails); on a
non-converged poll the resolver is never invoked and no endpoint is
produced. -/
theorem C5_endpoint_only_when_converged (env : PollEnv) :
    ((check_deployment_status env).endpoint.isSome = true →
      observedConverged (env.status 0) = true) ∧
    (observedConverged (env.status 0) = true →
      (check_deployment_status env).svcQueries = 1) ∧
    (observedConverged (env.status 0) = false →
      (check_deployment_status env).svcQueries = 0 ∧
      (check_deployment_status env).endpoint = none) := by
  unfold check_deployment_status
  repeat' split
  all_goals simp_all [observedConverged, observedReady]

/-- Environment for the C5 witness: a converged poll with a healthy service
lookup. -/
def envC5w : PollEnv := ⟨fun _ => ⟨0, true, some 3, 3⟩, ⟨0, [⟨some 32000⟩]⟩, .ok "10.1.1.1"⟩

/-- C5 witness: the amended theorem instantiated at a concrete converged
environment, discharging the hypothesis of its second conjunct. -/
theorem C5_endpoint_only_when_converged_witness :
    (check_deployment_status envC5w).svcQueries = 1 :=
  (C5_endpoint_only_when_converged envC5w).2.1 (by decide)

/-- One sample returned by `PrometheusConnect.custom_query`; `value` models
the string `r['value'][1]` that the code extracts (src/main.py:221). -/
structure Sample where
  value : String
deriving DecidableEq

/-- Environment for `get_prometheus_metrics`: `connected` is whether
`self.prometheus` is set; the four query fields hold the outcome each
`custom_query` call would produce, `.error` modelling a raised exception. -/
structure PromEnv where
  connected : Bool
  cpuQ : Except Unit (List Sample)
  memoryQ : Except Unit (List Sample)
  diskQ : Except Unit (List Sample)
  podsQ : Except Unit (List Sample)

/-- `r[0]['value'][1] if r else "N/A"` (src/main.py:221,226,231). -/
def firstValueOrNA (r : List Sample) : String :=
  match r with
  | [] => "N/A"
  | s :: _ => s.value

/-- `len(pods_result) if pods_result else 0` (src/main.py:236). -/
def podsCount (r : List Sample) : Nat :=
  match r with
  | [] => 0
  | _ :: _ => r.length

/-- The fully populated `metrics` dict built on the success path of
`get_prometheus_metrics` (keys `cpu`, `memory`, `disk`, `pods`). -/
structure MetricsSnapshot where
  cpu : String
  memory : String
  disk : String
  pods : Nat
deriving DecidableEq

/-- What `get_prometheus_metrics` produces: the returned dict (`none` models
the empty dict `\x7b\x7d`) and how many of the four queries were issued. -/
structure MetricsOutcome where
  snapshot : Option MetricsSnapshot
  queriesIssued : Nat
deriving DecidableEq

/-- `get_prometheus_metrics` (src/main.py:209-248).  When `self.prometheus`
is unset the function returns the empty dict without issuing any query.
Otherwise the four queries run sequentially inside one `try`: an exception
from any query aborts the remaining ones and the handler returns the empty
dict, discarding values already collected; an empty (non-raising) result
yields `"N/A"` for cpu/memory/disk and `0` for pods. -/
def get_prometheus_metrics (env : PromEnv) : MetricsOutcome :=
  if env.connected = false then ⟨none, 0⟩
  else
    match env.cpuQ with
    | .error _ => ⟨none, 1⟩
    | .ok cpuR =>
      match env.memoryQ with
      | .error _ => ⟨none, 2⟩
      | .ok memR =>
        match env.diskQ with
        | .error _ => ⟨none, 3⟩
        | .ok diskR =>
          match env.podsQ with
          | .error _ => ⟨none, 4⟩
          | .ok podsR =>
            ⟨some ⟨firstValueOrNA cpuR, firstValueOrNA memR,
                   firstValueOrNA diskR, podsCount podsR⟩, 4⟩

/-- Helper: on the all-queries-succeed path the returned dict holds each
field computed from its own query result, and all four queries ran. -/
theorem metrics_ok_eq (env : PromEnv) (rc rm rd rp : List Sample)
    (hc : env.connected = true) (h1 : env.cpuQ = .ok rc)
    (h2 : env.memoryQ = .ok rm) (h3 : env.diskQ = .ok rd)
    (h4 : env.podsQ = .ok rp) :
    get_prometheus_metrics env =
      ⟨some ⟨firstValueOrNA rc, firstValueOrNA rm,
             firstValueOrNA rd, podsCount rp⟩, 4⟩ := by
  unfold get_prometheus_metrics
  rw [h1, h2, h3, h4]
  simp [hc]

/-- Environment for the C2 counterexample: the cpu query succeeds with a
sample, the memory query raises, disk and pods would succeed. -/
def envC2 : PromEnv :=
  ⟨true, .ok [⟨"42.1"⟩], .error (), .ok [⟨"5.3"⟩], .ok [⟨"1"⟩, ⟨"1"⟩, ⟨"1"⟩]⟩

/-- C2 counterexample: the memory query raises, and the aggregator returns
the entirely empty dict after issuing only two of the four queries — the
already-collected cpu value is discarded and the disk and pods queries are
never issued, refuting the claim that one failing query leaves the other
three fields populated. -/
theorem C2_counterexample :
    envC2.cpuQ = .ok [⟨"42.1"⟩] ∧
    (get_prometheus_metrics envC2).snapshot = none ∧
    (get_prometheus_metrics envC2).queriesIssued = 2 := by
  exact ⟨rfl, rfl, rfl⟩

/-- C2 (amended): only an *empty* (non-raising) result of one query leaves
the other three fields populated from their own results (the empty field
becoming `"N/A"`, an empty pods result becoming `0`); a query that raises
aborts the remaining queries and the aggregator returns the entirely empty
dict. -/
theorem C2_empty_tolerated (env : PromEnv) (rc rm rd rp : List Sample)
    (hc : env.connected = true) (h1 : env.cpuQ = .ok rc)
    (h2 : env.memoryQ = .ok rm) (h3 : env.diskQ = .ok rd)
    (h4 : env.podsQ = .ok rp) :
    (get_prometheus_metrics env).snapshot =
      some ⟨firstValueOrNA rc, firstValueOrNA rm,
            firstValueOrNA rd, podsCount rp⟩ := by
  rw [metrics_ok_eq env rc rm rd rp hc h1 h2 h3 h4]

/-- Environment for the C2 witness: the disk query returns no samples while
cpu, memory and pods succeed (the spec's partial-metric-failure scenario). -/
def envC2w : PromEnv :=
  ⟨true, .ok [⟨"42.1"⟩], .ok [⟨"61.0"⟩], .ok [], .ok [⟨"1"⟩, ⟨"1"⟩, ⟨"1"⟩]⟩

/-- C2 witness: with an empty disk result, the snapshot is populated with
disk = "N/A" and the other three fields from their own queries. -/
theorem C2_empty_tolerated_witness :
    (get_prometheus_metrics envC2w).snapshot =
      some ⟨"42.1", "61.0", "N/A", 3⟩ :=
  C2_empty_tolerated envC2w [⟨"42.1"⟩] [⟨"61.0"⟩] [] [⟨"1"⟩, ⟨"1"⟩, ⟨"1"⟩]
    rfl rfl rfl rfl rfl

/-- Environment for the C4 counterexample: cpu, memory and disk succeed with
samples; the pods query succeeds but returns no series. -/
def envC4 : PromEnv :=
  ⟨true, .ok [⟨"42.1"⟩], .ok [⟨"61.0"⟩], .ok [⟨"5.3"⟩], .ok []⟩

/-- C4 counterexample: the pods query returns no series, yet the snapshot
reports the numeric value `0` for the pods field, not an "unavailable"
marker — the code conflates "query returned no data" with a genuine zero
count, refuting the claim that no field is ever set to numeric zero on an
empty result. -/
theorem C4_counterexample :
    envC4.podsQ = .ok [] ∧
    (get_prometheus_metrics envC4).snapshot =
      some ⟨"42.1", "61.0", "5.3", 0⟩ := by
  exact ⟨rfl, rfl⟩

/-- C4 (amended): on an all-queries-succeed run, an empty result makes the
cpu, memory and disk fields the explicit `"N/A"` marker, but makes the pods
field the numeric value `0`, indistinguishable from a genuine count of
zero. -/
theorem C4_empty_markers (env : PromEnv) (rc rm rd rp : List Sample)
    (hc : env.connected = true) (h1 : env.cpuQ = .ok rc)
    (h2 : env.memoryQ = .ok rm) (h3 : env.diskQ = .ok rd)
    (h4 : env.podsQ = .ok rp) (s : MetricsSnapshot)
    (hs : (get_prometheus_metrics env).snapshot = some s) :
    (rc = [] → s.cpu = "N/A") ∧ (rm = [] → s.memory = "N/A") ∧
    (rd = [] → s.disk = "N/A") ∧ (rp = [] → s.pods = 0) := by
  rw [metrics_ok_eq env rc rm rd rp hc h1 h2 h3 h4] at hs
  have hs2 : s = ⟨firstValueOrNA rc, firstValueOrNA rm,
                  firstValueOrNA rd, podsCount rp⟩ := by
    exact (Option.some_inj.mp hs).symm
  subst hs2
  refine ⟨?_, ?_, ?_, ?_⟩ <;> intro h <;> subst h <;> rfl

/-- Environment for the C4 witness: every query succeeds with no series. -/
def envC4w : PromEnv := ⟨true, .ok [], .ok [], .ok [], .ok []⟩

/-- C4 witness: the amended theorem instantiated at the all-empty
environment; each hypothesis is discharged concretely. -/
theorem C4_empty_markers_witness :
    (MetricsSnapshot.mk "N/A" "N/A" "N/A" 0).cpu = "N/A" ∧
    (MetricsSnapshot.mk "N/A" "N/A" "N/A" 0).pods = 0 :=
  ⟨(C4_empty_markers envC4w [] [] [] [] rfl rfl rfl rfl rfl
      ⟨"N/A", "N/A", "N/A", 0⟩ rfl).1 rfl,
   (C4_empty_markers envC4w [] [] [] [] rfl rfl rfl rfl rfl
      ⟨"N/A", "N/A", "N/A", 0⟩ rfl).2.2.2 rfl⟩

/-- C9: on an all-queries-succeed run, each of the cpu, memory and disk
fields equals the `value` of the *first* sample of its own query result
whenever that result is non-empty — the instantaneous sample, not an
aggregate over the sequence. -/
theorem C9_first_sample (env : PromEnv) (rc rm rd rp : List Sample)
    (hc : env.connected = true) (h1 : env.cpuQ = .ok rc)
    (h2 : env.memoryQ = .ok rm) (h3 : env.diskQ = .ok rd)
    (h4 : env.podsQ = .ok rp) (s : MetricsSnapshot)
    (hs : (get_prometheus_metrics env).snapshot = some s) :
    (∀ x xs, rc = x :: xs → s.cpu = x.value) ∧
    (∀ x xs, rm = x :: xs → s.memory = x.value) ∧
    (∀ x xs, rd = x :: xs → s.disk = x.value) := by
  rw [metrics_ok_eq env rc rm rd rp hc h1 h2 h3 h4] at hs
  have hs2 : s = ⟨firstValueOrNA rc, firstValueOrNA rm,
                  firstValueOrNA rd, podsCount rp⟩ := by
    exact (Option.some_inj.mp hs).symm
  subst hs2
  refine ⟨?_, ?_, ?_⟩ <;> intro x xs h <;> subst h <;> rfl

/-- Environment for the C9 witness: each numeric query returns two samples,
so the theorem pins the field to the first one. -/
def envC9w : PromEnv :=
  ⟨true, .ok [⟨"42.1"⟩, ⟨"99.9"⟩], .ok [⟨"61.0"⟩, ⟨"12.0"⟩],
   .ok [⟨"5.3"⟩, ⟨"77.0"⟩], .ok [⟨"1"⟩]⟩

/-- C9 witness: at a concrete two-sample environment the cpu field is the
first sample's value. -/
theorem C9_first_sample_witness :
    (MetricsSnapshot.mk "42.1" "61.0" "5.3" 1).cpu = "42.1" :=
  (C9_first_sample envC9w [⟨"42.1"⟩, ⟨"99.9"⟩] [⟨"61.0"⟩, ⟨"12.0"⟩]
      [⟨"5.3"⟩, ⟨"77.0"⟩] [⟨"1"⟩] rfl rfl rfl rfl rfl
      ⟨"42.1", "61.0", "5.3", 1⟩ rfl).1 ⟨"42.1"⟩ [⟨"99.9"⟩] rfl

/-- C10: when the Prometheus handle was never set, `get_prometheus_metrics`
issues no query at all and returns the empty dict — the operation is total
at the public interface even before `setup_environment` has succeeded. -/
theorem C10_not_connected (env : PromEnv) (h : env.connected = false) :
    get_prometheus_metrics env = ⟨none, 0⟩ := by
  unfold get_prometheus_metrics
  simp [h]

/-- Environment for the C10 witness: handle unset, queries would succeed. -/
def envC10w : PromEnv := ⟨false, .ok [⟨"42.1"⟩], .ok [], .ok [], .ok []⟩

/-- C10 witness: the theorem instantiated at a concrete unconnected
environment. -/
theorem C10_not_connected_witness :
    get_prometheus_metrics envC10w = ⟨none, 0⟩ :=
  C10_not_connected envC10w rfl

/-- One port entry of a service returned by `list_namespaced_service`
(`get_prometheus_url`, src/main.py:76-84): the typed client always exposes
`node_port` as an attribute, `none` when unset. -/
structure PromSvcPort where
  node_port : Option Nat
deriving DecidableEq

/-- One service returned by the label-selector listing; `ports` models
`svc.spec.ports` (an unset or empty list is falsy and skipped). -/
structure PromSvc where
  ports : List PromSvcPort
deriving DecidableEq

/-- Environment for `get_prometheus_url`: `services` is the outcome of
`config.load_kube_config()` plus `list_namespaced_service` (`.error` models
any raised transport/API error); `minikubeIpResult` as in `PollEnv`. -/
structure UrlEnv where
  services : Except Unit (List PromSvc)
  minikubeIpResult : Except Unit String

/-- The `for svc in services.items` loop of `get_prometheus_url`
(src/main.py:81-86): skip services with empty `ports`; take the first port's
`node_port`; if it is truthy (present and nonzero) return it, otherwise
move on to the next service. -/
def findNodePort : List PromSvc → Option Nat
  | [] => none
  | svc :: rest =>
    match svc.ports with
    | [] => findNodePort rest
    | p :: _ =>
      match p.node_port with
      | none => findNodePort rest
      | some np => if np = 0 then findNodePort rest else some np

/-- `get_prometheus_url` (src/main.py:70-91): scan the listed services for a
truthy first-port node port and pair it with the minikube node address;
when the scan finds nothing, or listing the services raises, return the
fallback `http://localhost:9090`. -/
def get_prometheus_url (env : UrlEnv) : String :=
  match env.services with
  | .error _ => "http://localhost:9090"
  | .ok svcs =>
    match findNodePort svcs with
    | some np =>
      "http://" ++ get_minikube_ip env.minikubeIpResult ++ ":" ++ toString np
    | none => "http://localhost:9090"

/-- The assigned node port a single service contributes: the first port
entry's `node_port` when present and nonzero. -/
def assignedPort (svc : PromSvc) : Option Nat :=
  match svc.ports with
  | [] => none
  | p :: _ =>
    match p.node_port with
    | none => none
    | some np => if np = 0 then none else some np

/-- Helper: one step of the service-scanning loop, phrased through the
assigned port of the head service. -/
theorem findNodePort_cons (svc : PromSvc) (rest : List PromSvc) :
    findNodePort (svc :: rest) =
      match assignedPort svc with
      | some np => some np
      | none => findNodePort rest := by
  nth_rewrite 1 [findNodePort.eq_def]
  rcases hp : svc.ports with _ | ⟨p, tail⟩
  · simp [assignedPort, hp]
  · rcases hn : p.node_port with _ | np
    · simp [assignedPort, hp, hn]
    · by_cases h : np = 0 <;> simp [assignedPort, hp, hn, h]

/-- Helper: the loop of `get_prometheus_url` returns the first assigned node
port of the listed services. -/
theorem findNodePort_eq_findSome (svcs : List PromSvc) :
    findNodePort svcs = List.findSome? assignedPort svcs := by
  induction svcs with
  | nil => rfl
  | cons svc rest ih =>
    rw [findNodePort_cons, List.findSome?_cons, ih]
    cases h : assignedPort svc <;> simp [h]

/-- C6: the Endpoint Resolver is total (hence never raises): when listing the
services raises it returns the fallback `http://localhost:9090`; when no
listed service carries an assigned (truthy first-port) node port — in
particular for an empty listing — it returns the same fallback; and when
some service does carry one, it returns the minikube node address paired
with the first such port. -/
theorem C6_resolver_total (env : UrlEnv) :
    (∀ e, env.services = .error e →
      get_prometheus_url env = "http://localhost:9090") ∧
    (∀ svcs, env.services = .ok svcs →
      List.findSome? assignedPort svcs = none →
      get_prometheus_url env = "http://localhost:9090") ∧
    (∀ svcs np, env.services = .ok svcs →
      List.findSome? assignedPort svcs = some np →
      get_prometheus_url env =
        "http://" ++ get_minikube_ip env.minikubeIpResult ++ ":" ++ toString np) := by
  refine ⟨?_, ?_, ?_⟩
  · intro e he
    unfold get_prometheus_url
    rw [he]
  · intro svcs hs hn
    simp [get_prometheus_url, hs, findNodePort_eq_findSome, hn]
  · intro svcs np hs hn
    simp [get_prometheus_url, hs, findNodePort_eq_findSome, hn]

/-- Environment for the C6 witness: the selector matches zero services. -/
def envC6w : UrlEnv := ⟨.ok [], .ok "192.168.49.2"⟩

/-- C6 witness: with zero matching services the resolver returns the
documented fallback, not an error. -/
theorem C6_resolver_total_witness :
    get_prometheus_url envC6w = "http://localhost:9090" :=
  (C6_resolver_total envC6w).2.1 [] rfl rfl

/-- Environment for `deploy_application`: `ioError` is whether any step of
the cycle raises a Python-level exception (file write failing, a listed
executable missing); the four `Rc` fields are the exit codes of the
`docker build`, `minikube image load` and two `kubectl apply` subprocesses
— all captured with `capture_output=True` and never inspected; `poll` feeds
the nested `check_deployment_status` call. -/
structure DeployEnv where
  ioError : Bool
  dockerBuildRc : Int
  imageLoadRc : Int
  applyDeploymentRc : Int
  applyServiceRc : Int
  poll : PollEnv

/-- What `deploy_application` produces: the returned boolean, the number of
`get_prometheus_metrics` invocations made during the cycle, and the outcome
of the nested status check (whose result the code discards). -/
structure DeployOutcome where
  result : Bool
  metricsCalls : Nat
  checkOutcome : Option CheckOutcome
deriving DecidableEq

/-- `deploy_application` (src/main.py:102-135): writes `deployment.yaml`,
runs `docker build`, `minikube image load` and two `kubectl apply`
subprocesses without ever inspecting their exit codes, calls
`check_deployment_status` and discards its result, and returns `True`;
only a raised exception makes it return `False`.  `get_prometheus_metrics`
is never called anywhere in the cycle. -/
def deploy_application (env : DeployEnv) : DeployOutcome :=
  if env.ioError then ⟨false, 0, none⟩
  else ⟨true, 0, some (check_deployment_status env.poll)⟩

/-- A trivial poll environment for the deploy examples: status query fails. -/
def pollFailing : PollEnv := ⟨fun _ => ⟨1, false, none, 1⟩, ⟨1, []⟩, .error ()⟩

/-- Deploy environment in which every subprocess succeeds. -/
def envDeployOk : DeployEnv := ⟨false, 0, 0, 0, 0, pollFailing⟩

/-- Deploy environment in which the deployment apply fails (exit code 1)
while the service apply succeeds — a partial failure. -/
def envDeployMixed : DeployEnv := ⟨false, 0, 0, 1, 0, pollFailing⟩

/-- C7 counterexample: a cycle whose deployment apply failed while the
service apply succeeded produces exactly the same outcome as an all-success
cycle, and reports `True` — the per-object exit codes are captured and
ignored, so a partial failure is silently swallowed into an unconditional
success, refuting the claimed per-object success/failure reporting. -/
theorem C7_counterexample :
    envDeployMixed.applyDeploymentRc = 1 ∧
    envDeployOk.applyDeploymentRc = 0 ∧
    deploy_application envDeployMixed = deploy_application envDeployOk ∧
    (deploy_application envDeployMixed).result = true := by
  decide

/-- C7 (amended): `deploy_application` reports a single boolean that is
independent of the per-object apply exit codes — it is `true` exactly when
no step raised — so partial apply failures are not visible in the reported
result. -/
theorem C7_ignores_apply_rcs (env : DeployEnv) (d s : Int) :
    deploy_application
        { env with applyDeploymentRc := d, applyServiceRc := s } =
      deploy_application env ∧
    (deploy_application env).result = !env.ioError := by
  constructor
  · unfold deploy_application
    rfl
  · unfold deploy_application
    cases h : env.ioError <;> simp [h]

/-- C8 counterexample: a complete deploy cycle (no exception, deployment not
converged) issues zero Metrics Aggregator invocations — the orchestrated
cycle never fetches metrics, refuting the claim that the aggregator is
invoked in every reconciliation cycle regardless of the apply/convergence
outcome. -/
theorem C8_counterexample :
    (deploy_application envDeployOk).result = true ∧
    (deploy_application envDeployOk).metricsCalls = 0 := by
  decide

/-- C8 (amended): no reconciliation cycle run by `deploy_application` ever
invokes `get_prometheus_metrics`; metrics are fetched only by the separate
dashboard menu action, and the cycle returns a bare boolean rather than an
assembled report. -/
theorem C8_no_metrics_in_deploy (env : DeployEnv) :
    (deploy_application env).metricsCalls = 0 := by
  unfold deploy_application
  cases h : env.ioError <;> simp [h]
